import Mathlib

/-!
Verification of the Kiki-ai chaos-engineering layer.

The repository is a thin web layer that maps five scenario identifiers to
kubectl actions (`executeChaos` in the chaos-run route), validates and scores
requests (`POST`), and reports cluster health or a simulated placeholder
(`GET` of the status route, `getClusterHealth` of the k8s client).

We embed the code shallowly: the live cluster is an explicit `ClusterState`,
kubectl subprocess calls become pure functions over it, subprocess failures
are injected by an oracle `err : KCmd → Option String` giving the error text
of a command that fails, randomness (`Math.random` in `getRandomPod`) becomes
an index parameter `rnd` reduced modulo the candidate count, and the
fire-and-forget `setTimeout` uncordon becomes an entry in a `timers` list
(delay in milliseconds, command to run).  The list `log` records every
kubectl command issued during a call, in order.  The bracket accesses
`scenarioPrompts[scenarioId]` and `scoreMap[scenarioId]` are JavaScript
property reads on object literals, so they see the properties inherited
from Object.prototype (toString, constructor, ...), which are truthy;
`getProp` models the full lookup, `JSValue` the values it can produce.
-/

namespace Kiki

/-- A pod as seen through kubectl: name, label selectors it matches
(e.g. "app=nginx"), phase string, restart count of its first container,
and the optional memory limit of its first container. -/
structure Pod where
  name : String
  labels : List String
  phase : String
  restartCount : Nat
  memoryLimit : Option String
deriving Repr, DecidableEq

/-- A cluster node: name, Ready condition, and whether it is cordoned. -/
structure KNode where
  name : String
  ready : Bool
  unschedulable : Bool
deriving Repr, DecidableEq

/-- The observable cluster state touched by this program. -/
structure ClusterState where
  pods : List Pod
  nodes : List KNode
  services : Nat
deriving Repr, DecidableEq

/-- The kubectl commands the code can issue. -/
inductive KCmd
  | getPods (selector : String)
  | getPodsNs
  | getPodJson (name : String)
  | deletePod (name : String)
  | getNodes
  | getServices
  | cordon (name : String)
  | uncordon (name : String)
deriving Repr, DecidableEq

/-- Commands that mutate cluster state (as opposed to reads). -/
def KCmd.isMutating : KCmd → Bool
  | .deletePod _ => true
  | .cordon _ => true
  | .uncordon _ => true
  | _ => false

/-- The execution environment of one request: the availability probe's
answer (`isKubernetesAvailable`), the cluster contents, the random draw
used by `getRandomPod`, and the subprocess-failure oracle. -/
structure Env where
  k8sAvailable : Bool
  cluster : ClusterState
  rnd : Nat
  err : KCmd → Option String

/-- `ActionResult` of the dispatcher: {success, message, details}. -/
structure ActionResult where
  success : Bool
  message : String
  details : String
deriving Repr, DecidableEq

/-- Whether a pod matches a label selector string. -/
def labelMatches (selector : String) (p : Pod) : Bool :=
  p.labels.contains selector

/-- Names of the pods matching a selector, in list order
(the whitespace-delimited jsonpath output of `kubectl get pods -l`). -/
def matchingPodNames (selector : String) (s : ClusterState) : List String :=
  (s.pods.filter (labelMatches selector)).map Pod.name

/-- `getRandomPod` of k8s-client: list pod names matching the selector and
pick one at a uniform random index; any kubectl error is caught and
becomes `none`.  Returns the chosen name (or `none`) and the command log. -/
def getRandomPod (env : Env) (selector : String) : Option String × List KCmd :=
  match env.err (.getPods selector) with
  | some _ => (none, [.getPods selector])
  | none =>
    let names := matchingPodNames selector env.cluster
    if names.isEmpty then (none, [.getPods selector])
    else (names.get? (env.rnd % names.length), [.getPods selector])

/-- Look a pod up by name (kubectl names are unique keys per namespace). -/
def podByName (s : ClusterState) (name : String) : Option Pod :=
  s.pods.find? (fun p => p.name = name)

/-- Remove the pod of the given name (`kubectl delete pod name`). -/
def removePod (s : ClusterState) (name : String) : ClusterState :=
  { s with pods := s.pods.eraseP (fun p => p.name = name) }

/-- Mark the node of the given name unschedulable (`kubectl cordon name`). -/
def cordonNodeState (s : ClusterState) (name : String) : ClusterState :=
  { s with nodes := s.nodes.map (fun n =>
      if n.name = name then { n with unschedulable := true } else n) }

/-- Count of pods whose phase is Running (`getClusterHealth`). -/
def runningPods (s : ClusterState) : Nat :=
  (s.pods.filter (fun p => p.phase = "Running")).length

/-- Count of nodes with a True Ready condition (`getClusterHealth`). -/
def readyNodes (s : ClusterState) : Nat :=
  (s.nodes.filter (fun n => n.ready)).length

/-- The simulated-mode `ActionResult` returned by `executeChaos` when the
availability probe fails. -/
def simulatedResult (sid : String) : ActionResult :=
  { success := false
    message := "Simulated: " ++ sid ++ ". Connect to a Kubernetes cluster to run real chaos experiments."
    details := "Kubernetes cluster not accessible" }

/-- The `ActionResult` built by the outer catch of `executeChaos` from a
caught error text. -/
def outerCatchResult (e : String) : ActionResult :=
  { success := false
    message := "⚠️ Chaos execution encountered an issue: " ++ e
    details := "Check kubectl access and cluster connectivity" }

/-- The no-target result of the pod-delete case (with deploy guidance). -/
def noPodsLong : ActionResult :=
  { success := false
    message := "No nginx pods found. Deploy with: kubectl create deployment nginx --image=nginx --replicas=3"
    details := "No target pods available" }

/-- The no-target result of the other three pod cases. -/
def noPodsShort : ActionResult :=
  { success := false
    message := "No nginx pods found"
    details := "No target pods available" }

/-- The outcome of one `executeChaos` call: the returned `ActionResult`,
the cluster state after it, the kubectl commands issued (in order), the
timers scheduled (delay in ms, command), and — a bookkeeping field of the
model — the error text the outer catch handled, if any. -/
structure ChaosOutcome where
  result : ActionResult
  cluster : ClusterState
  log : List KCmd
  timers : List (Nat × KCmd)
  thrown : Option String
deriving Repr

/-- The pod-delete case of the `executeChaos` switch. -/
def runPodDelete (env : Env) : ChaosOutcome :=
  match getRandomPod env "app=nginx" with
  | (none, l) =>
    { result := noPodsLong, cluster := env.cluster, log := l, timers := [], thrown := none }
  | (some podName, l) =>
    match env.err (.deletePod podName) with
    | some m =>
      let e := "Failed to delete pod: " ++ m
      { result := outerCatchResult e, cluster := env.cluster
        log := l ++ [.deletePod podName], timers := [], thrown := some e }
    | none =>
      { result :=
          { success := true
            message := "✅ Deleted pod: " ++ podName
            details := "Pod " ++ podName ++ " has been terminated. Kubernetes is automatically recreating it to maintain the desired replica count. Watch with: kubectl get pods -w" }
        cluster := removePod env.cluster podName
        log := l ++ [.deletePod podName], timers := [], thrown := none }

/-- The cpu-spike case: read the restart count, then delete the pod. -/
def runCpuSpike (env : Env) : ChaosOutcome :=
  match getRandomPod env "app=nginx" with
  | (none, l) =>
    { result := noPodsShort, cluster := env.cluster, log := l, timers := [], thrown := none }
  | (some podName, l) =>
    match env.err (.getPodJson podName) with
    | some m =>
      let e := "kubectl failed: " ++ m
      { result := outerCatchResult e, cluster := env.cluster
        log := l ++ [.getPodJson podName], timers := [], thrown := some e }
    | none =>
      let restarts := ((podByName env.cluster podName).map Pod.restartCount).getD 0
      match env.err (.deletePod podName) with
      | some m =>
        let e := "Failed to delete pod: " ++ m
        { result := outerCatchResult e, cluster := env.cluster
          log := l ++ [.getPodJson podName, .deletePod podName], timers := [], thrown := some e }
      | none =>
        { result :=
            { success := true
              message := "✅ Simulated CPU overload crash for pod: " ++ podName
              details := "Pod " ++ podName ++ " was terminated (simulating a CPU-induced crash). It had " ++ toString restarts ++ " previous restarts. Kubernetes will recreate it with restart count " ++ toString (restarts + 1) ++ ". This demonstrates what happens when pods don\x27t have resource limits." }
          cluster := removePod env.cluster podName
          log := l ++ [.getPodJson podName, .deletePod podName], timers := [], thrown := none }

/-- The memory-leak case: read the memory limit, then delete the pod. -/
def runMemoryLeak (env : Env) : ChaosOutcome :=
  match getRandomPod env "app=nginx" with
  | (none, l) =>
    { result := noPodsShort, cluster := env.cluster, log := l, timers := [], thrown := none }
  | (some podName, l) =>
    match env.err (.getPodJson podName) with
    | some m =>
      let e := "kubectl failed: " ++ m
      { result := outerCatchResult e, cluster := env.cluster
        log := l ++ [.getPodJson podName], timers := [], thrown := some e }
    | none =>
      let memoryLimit := ((podByName env.cluster podName).bind Pod.memoryLimit).getD "unlimited"
      match env.err (.deletePod podName) with
      | some m =>
        let e := "Failed to delete pod: " ++ m
        { result := outerCatchResult e, cluster := env.cluster
          log := l ++ [.getPodJson podName, .deletePod podName], timers := [], thrown := some e }
      | none =>
        { result :=
            { success := true
              message := "✅ Simulated OOM (Out of Memory) kill for pod: " ++ podName
              details := "Pod " ++ podName ++ " was terminated (simulating an OOM kill). Memory limit was: " ++ memoryLimit ++ ". Without proper memory limits, this could crash the entire node! Kubernetes will recreate the pod." }
          cluster := removePod env.cluster podName
          log := l ++ [.getPodJson podName, .deletePod podName], timers := [], thrown := none }

/-- The network-delay case: delete a pod to simulate a partition. -/
def runNetworkDelay (env : Env) : ChaosOutcome :=
  match getRandomPod env "app=nginx" with
  | (none, l) =>
    { result := noPodsShort, cluster := env.cluster, log := l, timers := [], thrown := none }
  | (some podName, l) =>
    match env.err (.deletePod podName) with
    | some m =>
      let e := "Failed to delete pod: " ++ m
      { result := outerCatchResult e, cluster := env.cluster
        log := l ++ [.deletePod podName], timers := [], thrown := some e }
    | none =>
      { result :=
          { success := true
            message := "✅ Simulated network partition by removing pod: " ++ podName
            details := "Pod " ++ podName ++ " was removed to simulate network connectivity loss. Other pods must handle the increased load. This tests service mesh resilience and load balancing. The pod will be recreated automatically." }
        cluster := removePod env.cluster podName
        log := l ++ [.deletePod podName], timers := [], thrown := none }

/-- The disk-pressure case: list nodes, cordon the first, schedule an
uncordon after 30000 ms.  Its own try/catch turns a kubectl error into a
result whose details is the error text, so the outer catch never fires. -/
def runDiskPressure (env : Env) : ChaosOutcome :=
  match env.err .getNodes with
  | some m =>
    { result :=
        { success := false, message := "Failed to cordon node"
          details := "kubectl failed: " ++ m }
      cluster := env.cluster, log := [.getNodes], timers := [], thrown := none }
  | none =>
    match env.cluster.nodes with
    | [] =>
      { result :=
          { success := false, message := "No nodes found", details := "Cluster has no nodes" }
        cluster := env.cluster, log := [.getNodes], timers := [], thrown := none }
    | n :: _ =>
      match env.err (.cordon n.name) with
      | some m =>
        { result :=
            { success := false, message := "Failed to cordon node"
              details := "kubectl failed: " ++ m }
          cluster := env.cluster, log := [.getNodes, .cordon n.name], timers := []
          thrown := none }
      | none =>
        { result :=
            { success := true
              message := "✅ Cordoned node: " ++ n.name
              details := "Node " ++ n.name ++ " has been cordoned (marked as unschedulable). New pods cannot be scheduled on this node, simulating disk pressure. Existing pods continue running. The node will be automatically uncordoned in 30 seconds." }
          cluster := cordonNodeState env.cluster n.name
          log := [.getNodes, .cordon n.name]
          timers := [(30000, .uncordon n.name)], thrown := none }

/-- `executeChaos` of the chaos-run route: probe availability, then
dispatch on the scenario identifier. -/
def executeChaos (env : Env) (sid : String) : ChaosOutcome :=
  if env.k8sAvailable = false then
    { result := simulatedResult sid, cluster := env.cluster, log := [], timers := []
      thrown := none }
  else if sid = "pod-delete" then runPodDelete env
  else if sid = "cpu-spike" then runCpuSpike env
  else if sid = "memory-leak" then runMemoryLeak env
  else if sid = "network-delay" then runNetworkDelay env
  else if sid = "disk-pressure" then runDiskPressure env
  else
    { result :=
        { success := false, message := "Unknown scenario: " ++ sid
          details := "Scenario not implemented" }
      cluster := env.cluster, log := [], timers := [], thrown := none }

/-! ## The status route -/

/-- The cluster-health snapshot reported by `GET /cluster/status`. -/
structure StatusSnapshot where
  healthy : Bool
  pods : Nat
  totalPods : Nat
  nodes : Nat
  totalNodes : Nat
  services : Nat
  simulated : Bool
deriving Repr, DecidableEq

/-- The fixed placeholder snapshot returned when the cluster is
unreachable or a query fails. -/
def simulatedSnapshot : StatusSnapshot :=
  { healthy := true, pods := 3, totalPods := 3, nodes := 1, totalNodes := 1
    services := 2, simulated := true }

/-- `getClusterHealth` of k8s-client: count running vs. total pods, ready
vs. total nodes, and services; any kubectl error propagates.  Returns the
snapshot (or the error text) and the command log. -/
def getClusterHealth (env : Env) : Except String StatusSnapshot × List KCmd :=
  match env.err .getPodsNs with
  | some m => (.error ("kubectl failed: " ++ m), [.getPodsNs])
  | none =>
    match env.err .getNodes with
    | some m => (.error ("kubectl failed: " ++ m), [.getPodsNs, .getNodes])
    | none =>
      match env.err .getServices with
      | some m => (.error ("kubectl failed: " ++ m), [.getPodsNs, .getNodes, .getServices])
      | none =>
        let totalPods := env.cluster.pods.length
        let running := runningPods env.cluster
        (.ok { healthy := if totalPods > 0 then running = totalPods else true
               pods := running
               totalPods := totalPods
               nodes := readyNodes env.cluster
               totalNodes := env.cluster.nodes.length
               services := env.cluster.services
               simulated := false },
         [.getPodsNs, .getNodes, .getServices])

/-- `GET` of the cluster status route: probe availability, then either the
real health query or the placeholder; any error also degrades to the
placeholder.  Returns the snapshot and the kubectl command log. -/
def clusterStatusGET (env : Env) : StatusSnapshot × List KCmd :=
  if env.k8sAvailable = false then (simulatedSnapshot, [])
  else
    match getClusterHealth env with
    | (.error _, l) => (simulatedSnapshot, l)
    | (.ok h, l) => (h, l)

/-! ## The chaos-run route -/

/-- The scenario prompt table of the chaos-run route; the `POST` validation
gate checks membership of the request identifier among its keys. -/
def scenarioPrompts : List (String × String) :=
  [("pod-delete", "A Kubernetes pod was suddenly deleted. Analyze what happens:\n- What happens to traffic during pod deletion?\n- How does replica count affect resilience?\n- What configuration prevents downtime?\nProvide a brief explanation (3-4 sentences) and suggest a fix."),
   ("cpu-spike", "A pod was restarted due to high CPU usage. Analyze:\n- What happens without resource limits?\n- How does this affect other pods on the node?\n- What Kubernetes features prevent this issue?\nExplain clearly and suggest resource limit configuration."),
   ("memory-leak", "A pod was killed due to memory issues (OOM). Analyze:\n- What happens when it reaches node memory limits?\n- How does Kubernetes handle OOM (Out of Memory)?\n- What prevents cascading failures?\nProvide insights and remediation steps."),
   ("network-delay", "Network connectivity was disrupted between services. Analyze:\n- How do timeouts affect the application?\n- What happens to user requests?\n- What patterns handle network issues?\nExplain and suggest resilience patterns like circuit breakers."),
   ("disk-pressure", "A node was cordoned to simulate disk pressure. Analyze:\n- How does Kubernetes detect disk pressure?\n- What happens to pods on this node?\n- How to prevent disk-related failures?\nProvide explanation and prevention strategies.")]

/-- The static difficulty score table of the chaos-run route. -/
def scoreMap : List (String × Nat) :=
  [("pod-delete", 100), ("cpu-spike", 150), ("memory-leak", 150),
   ("network-delay", 200), ("disk-pressure", 200)]

/-- The five scenario identifiers. -/
def scenarioIds : List String :=
  ["pod-delete", "cpu-spike", "memory-leak", "network-delay", "disk-pressure"]

/-- A JavaScript value as far as this route observes one: undefined, a
string, a number, or a function/object inherited from Object.prototype
(recorded by the property name it was read under). -/
inductive JSValue
  | undefined
  | str (s : String)
  | num (n : Nat)
  | protoFn (name : String)
deriving Repr, DecidableEq

/-- JavaScript truthiness: undefined and the empty string and 0 are
falsy; every function or object is truthy. -/
def JSValue.truthy : JSValue → Bool
  | .undefined => false
  | .str s => !(s = "")
  | .num n => !(n = 0)
  | .protoFn _ => true

/-- The property names every plain object literal inherits from
Object.prototype, each bound to a truthy function or object. -/
def objectPrototypeKeys : List String :=
  ["constructor", "hasOwnProperty", "isPrototypeOf", "propertyIsEnumerable",
   "toLocaleString", "toString", "valueOf", "__defineGetter__",
   "__defineSetter__", "__lookupGetter__", "__lookupSetter__", "__proto__"]

/-- JavaScript bracket access on an object literal with the given own
properties: the own property when present, else the property inherited
from Object.prototype, else undefined. -/
def getProp (own : List (String × JSValue)) (key : String) : JSValue :=
  match own.lookup key with
  | some v => v
  | none => if key ∈ objectPrototypeKeys then .protoFn key else .undefined

/-- `scenarioPrompts[key]` as evaluated by JavaScript, prototype chain
included. -/
def scenarioPromptsProp (key : String) : JSValue :=
  getProp (scenarioPrompts.map (fun kv => (kv.1, JSValue.str kv.2))) key

/-- `scoreMap[key]` as evaluated by JavaScript, prototype chain
included. -/
def scoreMapProp (key : String) : JSValue :=
  getProp (scoreMap.map (fun kv => (kv.1, JSValue.num kv.2))) key

/-- The successful JSON body of `POST /chaos/run`.  `scoreChange` is the
value of `scoreMap[scenarioId] || 100`, a JavaScript value: a number for
the five own keys, an inherited function for a prototype property name. -/
structure RunOk where
  analysis : String
  scoreChange : JSValue
  success : Bool
  executionResult : String
  executionDetails : String
  realChaos : Bool
deriving Repr, DecidableEq

/-- The response of `POST /chaos/run`: 200 with a body, 400 on an invalid
scenario identifier, or 500 carrying an error text. -/
inductive RunResponse
  | ok (r : RunOk)
  | badRequest
  | serverError (e : String)
deriving Repr, DecidableEq

/-- The HTTP status of a response. -/
def RunResponse.status : RunResponse → Nat
  | .ok _ => 200
  | .badRequest => 400
  | .serverError _ => 500

/-- The outcome of one `POST /chaos/run` call: response, cluster state
after it, kubectl commands issued, timers scheduled. -/
structure PostOutcome where
  response : RunResponse
  cluster : ClusterState
  log : List KCmd
  timers : List (Nat × KCmd)
deriving Repr

/-- JavaScript truthiness of the `scenarioId` field: an absent field and
the empty string are falsy. -/
def truthyStr : Option String → Bool
  | none => false
  | some t => !(t = "")

/-- `POST` of the chaos-run route.  `body` is the parsed request:
`none` when JSON parsing throws (the outer catch answers 500), otherwise
the optional `scenarioId` field.  `env` drives `executeChaos` (its
`k8sAvailable` is the first availability probe); `avail2` is the second,
independent probe read into the `realChaos` response field; `groq` is the
chat-completion call, `.ok` carrying the optional message content.
The gate `!scenarioId || !scenarioPrompts[scenarioId]` and the score
`scoreMap[scenarioId] || 100` are JavaScript bracket accesses on object
literals, so both see the Object.prototype inherited properties. -/
def chaosRunPOST (env : Env) (avail2 : Bool) (body : Option (Option String))
    (groq : Except String (Option String)) : PostOutcome :=
  match body with
  | none =>
    { response := .serverError "Failed to execute chaos scenario"
      cluster := env.cluster, log := [], timers := [] }
  | some sidOpt =>
    if !truthyStr sidOpt || !(scenarioPromptsProp (sidOpt.getD "")).truthy then
      { response := .badRequest, cluster := env.cluster, log := [], timers := [] }
    else
      let sid := sidOpt.getD ""
      let ex := executeChaos env sid
      let isReal := avail2
      match groq with
      | .error _ =>
        { response := .serverError "Failed to execute chaos scenario"
          cluster := ex.cluster, log := ex.log, timers := ex.timers }
      | .ok content =>
        let analysis :=
          match content with
          | none => "Analysis unavailable"
          | some c => if c = "" then "Analysis unavailable" else c
        { response := .ok
            { analysis := analysis
              scoreChange :=
                if (scoreMapProp sid).truthy then scoreMapProp sid
                else JSValue.num 100
              success := ex.result.success
              executionResult := ex.result.message
              executionDetails := ex.result.details
              realChaos := isReal }
          cluster := ex.cluster, log := ex.log, timers := ex.timers }

/-! ## Auxiliary definitions for the statements -/

/-- The four scenario identifiers whose action is a pod deletion. -/
def podScenarioIds : List String :=
  ["pod-delete", "cpu-spike", "memory-leak", "network-delay"]

/-- The observable effect common to the four pod scenarios: resulting
cluster, state-mutating commands issued, and success flag, as a function
of the pod selection. -/
def deleteActionView (env : Env) : ClusterState × List KCmd × Bool :=
  match (getRandomPod env "app=nginx").1 with
  | none => (env.cluster, [], false)
  | some n => (removePod env.cluster n, [.deletePod n], true)

/-- Whether `pat` occurs as a contiguous sublist of `l`. -/
def subList (pat : List Char) : List Char → Bool
  | [] => pat.isEmpty
  | c :: rest => pat.isPrefixOf (c :: rest) || subList pat rest

/-- Whether the string `pat` occurs inside the string `s`. -/
def strContains (s pat : String) : Bool :=
  subList pat.data s.data

/-- Example pods of the spec's worked example. -/
def podA : Pod :=
  { name := "nginx-a", labels := ["app=nginx"], phase := "Running"
    restartCount := 0, memoryLimit := none }

/-- Second example pod. -/
def podB : Pod :=
  { name := "nginx-b", labels := ["app=nginx"], phase := "Running"
    restartCount := 0, memoryLimit := none }

/-- Third example pod. -/
def podC : Pod :=
  { name := "nginx-c", labels := ["app=nginx"], phase := "Running"
    restartCount := 0, memoryLimit := none }

/-- Example environment: reachable cluster with pods nginx-a, nginx-b,
nginx-c, one node, and no subprocess failures. -/
def envEx : Env :=
  { k8sAvailable := true
    cluster :=
      { pods := [podA, podB, podC]
        nodes := [{ name := "node-1", ready := true, unschedulable := false }]
        services := 2 }
    rnd := 0
    err := fun _ => none }

/-- Example environment with the availability probe failing. -/
def envSim : Env :=
  { envEx with k8sAvailable := false }

/-- Example environment in which the deletion of nginx-a fails with the
subprocess error text boom. -/
def envBoom : Env :=
  { k8sAvailable := true
    cluster :=
      { pods := [podA]
        nodes := [{ name := "node-1", ready := true, unschedulable := false }]
        services := 0 }
    rnd := 0
    err := fun c => if c = KCmd.deletePod "nginx-a" then some "boom" else none }

/-- Example environment with no pods nor nodes. -/
def envEmpty : Env :=
  { k8sAvailable := true
    cluster := { pods := [], nodes := [], services := 0 }
    rnd := 0
    err := fun _ => none }

/-! ## Helper lemmas -/

/-- `getRandomPod` always logs exactly the pod-listing command. -/
lemma getRandomPod_snd (env : Env) (sel : String) :
    (getRandomPod env sel).2 = [KCmd.getPods sel] := by
  unfold getRandomPod
  cases env.err (.getPods sel) <;> simp
  split <;> rfl

/-- With no kubectl failure, `getRandomPod` on an empty candidate list
returns no pod. -/
lemma getRandomPod_eq_none (env : Env) (sel : String)
    (he : env.err (.getPods sel) = none)
    (h : matchingPodNames sel env.cluster = []) :
    getRandomPod env sel = (none, [KCmd.getPods sel]) := by
  unfold getRandomPod
  rw [he]
  simp [h]

/-- With no kubectl failure and a nonempty candidate list, `getRandomPod`
returns some candidate name. -/
lemma getRandomPod_eq_some (env : Env) (sel : String)
    (he : env.err (.getPods sel) = none)
    (hne : matchingPodNames sel env.cluster ≠ []) :
    ∃ n, getRandomPod env sel = (some n, [KCmd.getPods sel]) ∧
      n ∈ matchingPodNames sel env.cluster := by
  unfold getRandomPod
  rw [he]
  have hlen : 0 < (matchingPodNames sel env.cluster).length := List.length_pos.mpr hne
  have hmod : env.rnd % (matchingPodNames sel env.cluster).length <
      (matchingPodNames sel env.cluster).length := Nat.mod_lt _ hlen
  have hget := List.get?_eq_get hmod
  refine ⟨(matchingPodNames sel env.cluster).get ⟨_, hmod⟩, ?_, List.get_mem _ _ _⟩
  simp only [List.isEmpty_iff]
  rw [if_neg hne, hget]

/-- Membership of the matching-name list unfolds to a matching pod. -/
lemma mem_matchingPodNames {sel : String} {s : ClusterState} {n : String} :
    n ∈ matchingPodNames sel s ↔
      ∃ p, p ∈ s.pods ∧ labelMatches sel p = true ∧ p.name = n := by
  simp only [matchingPodNames, List.mem_map, List.mem_filter]
  constructor
  · rintro ⟨p, ⟨hp, hl⟩, hn⟩
    exact ⟨p, hp, hl, hn⟩
  · rintro ⟨p, hp, hl, hn⟩
    exact ⟨p, ⟨hp, hl⟩, hn⟩

/-- The pod-delete case realizes the common delete-action view. -/
lemma runPodDelete_view (env : Env) (he : ∀ c, env.err c = none) :
    ((runPodDelete env).cluster, (runPodDelete env).log.filter KCmd.isMutating,
      (runPodDelete env).result.success) = deleteActionView env := by
  by_cases h : matchingPodNames "app=nginx" env.cluster = []
  · unfold runPodDelete deleteActionView
    rw [getRandomPod_eq_none env _ (he _) h]
    rfl
  · obtain ⟨n, hn, _⟩ := getRandomPod_eq_some env _ (he _) h
    unfold runPodDelete deleteActionView
    rw [hn]
    simp only
    rw [he (.deletePod n)]
    simp [KCmd.isMutating, List.filter]

/-- The cpu-spike case realizes the common delete-action view. -/
lemma runCpuSpike_view (env : Env) (he : ∀ c, env.err c = none) :
    ((runCpuSpike env).cluster, (runCpuSpike env).log.filter KCmd.isMutating,
      (runCpuSpike env).result.success) = deleteActionView env := by
  by_cases h : matchingPodNames "app=nginx" env.cluster = []
  · unfold runCpuSpike deleteActionView
    rw [getRandomPod_eq_none env _ (he _) h]
    rfl
  · obtain ⟨n, hn, _⟩ := getRandomPod_eq_some env _ (he _) h
    unfold runCpuSpike deleteActionView
    rw [hn]
    simp only
    rw [he (.getPodJson n)]
    simp only
    rw [he (.deletePod n)]
    simp [KCmd.isMutating, List.filter]

/-- The memory-leak case realizes the common delete-action view. -/
lemma runMemoryLeak_view (env : Env) (he : ∀ c, env.err c = none) :
    ((runMemoryLeak env).cluster, (runMemoryLeak env).log.filter KCmd.isMutating,
      (runMemoryLeak env).result.success) = deleteActionView env := by
  by_cases h : matchingPodNames "app=nginx" env.cluster = []
  · unfold runMemoryLeak deleteActionView
    rw [getRandomPod_eq_none env _ (he _) h]
    rfl
  · obtain ⟨n, hn, _⟩ := getRandomPod_eq_some env _ (he _) h
    unfold runMemoryLeak deleteActionView
    rw [hn]
    simp only
    rw [he (.getPodJson n)]
    simp only
    rw [he (.deletePod n)]
    simp [KCmd.isMutating, List.filter]

/-- The network-delay case realizes the common delete-action view. -/
lemma runNetworkDelay_view (env : Env) (he : ∀ c, env.err c = none) :
    ((runNetworkDelay env).cluster, (runNetworkDelay env).log.filter KCmd.isMutating,
      (runNetworkDelay env).result.success) = deleteActionView env := by
  by_cases h : matchingPodNames "app=nginx" env.cluster = []
  · unfold runNetworkDelay deleteActionView
    rw [getRandomPod_eq_none env _ (he _) h]
    rfl
  · obtain ⟨n, hn, _⟩ := getRandomPod_eq_some env _ (he _) h
    unfold runNetworkDelay deleteActionView
    rw [hn]
    simp only
    rw [he (.deletePod n)]
    simp [KCmd.isMutating, List.filter]

/-- Dispatch of the pod-delete identifier. -/
lemma executeChaos_pod_delete (env : Env) (ha : env.k8sAvailable = true) :
    executeChaos env "pod-delete" = runPodDelete env := by
  simp [executeChaos, ha]

/-- Dispatch of the cpu-spike identifier. -/
lemma executeChaos_cpu_spike (env : Env) (ha : env.k8sAvailable = true) :
    executeChaos env "cpu-spike" = runCpuSpike env := by
  simp [executeChaos, ha]

/-- Dispatch of the memory-leak identifier. -/
lemma executeChaos_memory_leak (env : Env) (ha : env.k8sAvailable = true) :
    executeChaos env "memory-leak" = runMemoryLeak env := by
  simp [executeChaos, ha]

/-- Dispatch of the network-delay identifier. -/
lemma executeChaos_network_delay (env : Env) (ha : env.k8sAvailable = true) :
    executeChaos env "network-delay" = runNetworkDelay env := by
  simp [executeChaos, ha]

/-- Dispatch of the disk-pressure identifier. -/
lemma executeChaos_disk_pressure (env : Env) (ha : env.k8sAvailable = true) :
    executeChaos env "disk-pressure" = runDiskPressure env := by
  simp [executeChaos, ha]

/-- Any of the four pod scenarios realizes the common delete-action view. -/
lemma executeChaos_podScenario_view (env : Env) (sid : String)
    (hs : sid ∈ podScenarioIds) (ha : env.k8sAvailable = true)
    (he : ∀ c, env.err c = none) :
    ((executeChaos env sid).cluster,
      (executeChaos env sid).log.filter KCmd.isMutating,
      (executeChaos env sid).result.success) = deleteActionView env := by
  simp only [podScenarioIds, List.mem_cons, List.not_mem_nil, or_false] at hs
  rcases hs with rfl | rfl | rfl | rfl
  · rw [executeChaos_pod_delete env ha]; exact runPodDelete_view env he
  · rw [executeChaos_cpu_spike env ha]; exact runCpuSpike_view env he
  · rw [executeChaos_memory_leak env ha]; exact runMemoryLeak_view env he
  · rw [executeChaos_network_delay env ha]; exact runNetworkDelay_view env he

/-- The pod-delete case never schedules a timer. -/
lemma runPodDelete_timers (env : Env) : (runPodDelete env).timers = [] := by
  unfold runPodDelete
  split
  · rfl
  · split <;> rfl

/-- The cpu-spike case never schedules a timer. -/
lemma runCpuSpike_timers (env : Env) : (runCpuSpike env).timers = [] := by
  unfold runCpuSpike
  split
  · rfl
  · split
    · rfl
    · split <;> rfl

/-- The memory-leak case never schedules a timer. -/
lemma runMemoryLeak_timers (env : Env) : (runMemoryLeak env).timers = [] := by
  unfold runMemoryLeak
  split
  · rfl
  · split
    · rfl
    · split <;> rfl

/-- The network-delay case never schedules a timer. -/
lemma runNetworkDelay_timers (env : Env) : (runNetworkDelay env).timers = [] := by
  unfold runNetworkDelay
  split
  · rfl
  · split <;> rfl

/-- None of the four pod scenarios schedules a timer. -/
lemma executeChaos_podScenario_timers (env : Env) (sid : String)
    (hs : sid ∈ podScenarioIds) (ha : env.k8sAvailable = true) :
    (executeChaos env sid).timers = [] := by
  simp only [podScenarioIds, List.mem_cons, List.not_mem_nil, or_false] at hs
  rcases hs with rfl | rfl | rfl | rfl
  · rw [executeChaos_pod_delete env ha]; exact runPodDelete_timers env
  · rw [executeChaos_cpu_spike env ha]; exact runCpuSpike_timers env
  · rw [executeChaos_memory_leak env ha]; exact runMemoryLeak_timers env
  · rw [executeChaos_network_delay env ha]; exact runNetworkDelay_timers env

/-- Every known scenario identifier has a prompt. -/
lemma scenarioPrompts_lookup_isSome (sid : String) (hs : sid ∈ scenarioIds) :
    (scenarioPrompts.lookup sid).isSome = true := by
  simp only [scenarioIds, List.mem_cons, List.not_mem_nil, or_false] at hs
  rcases hs with rfl | rfl | rfl | rfl | rfl <;> decide

/-- An identifier outside the five has no prompt. -/
lemma scenarioPrompts_lookup_eq_none (sid : String) (h : sid ∉ scenarioIds) :
    scenarioPrompts.lookup sid = none := by
  simp only [scenarioIds, List.mem_cons, List.not_mem_nil, or_false, not_or] at h
  obtain ⟨h1, h2, h3, h4, h5⟩ := h
  have e1 : (sid == "pod-delete") = false := beq_eq_false_iff_ne.mpr h1
  have e2 : (sid == "cpu-spike") = false := beq_eq_false_iff_ne.mpr h2
  have e3 : (sid == "memory-leak") = false := beq_eq_false_iff_ne.mpr h3
  have e4 : (sid == "network-delay") = false := beq_eq_false_iff_ne.mpr h4
  have e5 : (sid == "disk-pressure") = false := beq_eq_false_iff_ne.mpr h5
  simp [scenarioPrompts, List.lookup, e1, e2, e3, e4, e5]

/-- An identifier with a prompt is one of the five. -/
lemma mem_scenarioIds_of_lookup (sid : String)
    (h : (scenarioPrompts.lookup sid).isSome = true) : sid ∈ scenarioIds := by
  by_contra hn
  rw [scenarioPrompts_lookup_eq_none sid hn] at h
  simp at h

/-- A known scenario identifier is truthy. -/
lemma truthyStr_of_mem (sid : String) (hs : sid ∈ scenarioIds) :
    truthyStr (some sid) = true := by
  simp only [scenarioIds, List.mem_cons, List.not_mem_nil, or_false] at hs
  rcases hs with rfl | rfl | rfl | rfl | rfl <;> decide

/-- Looking a key up after mapping the values maps the lookup result. -/
lemma lookup_map_val {β γ : Type} (f : β → γ) (k : String)
    (l : List (String × β)) :
    List.lookup k (l.map (fun kv => (kv.1, f kv.2))) =
      (List.lookup k l).map f := by
  induction l with
  | nil => rfl
  | cons kv t ih =>
    rcases kv with ⟨a, b⟩
    simp only [List.map, List.lookup]
    cases h : k == a
    · simpa [h] using ih
    · simp [h]

/-- An identifier outside the five has no own score entry. -/
lemma scoreMap_lookup_eq_none (sid : String) (h : sid ∉ scenarioIds) :
    scoreMap.lookup sid = none := by
  simp only [scenarioIds, List.mem_cons, List.not_mem_nil, or_false, not_or] at h
  obtain ⟨h1, h2, h3, h4, h5⟩ := h
  have e1 : (sid == "pod-delete") = false := beq_eq_false_iff_ne.mpr h1
  have e2 : (sid == "cpu-spike") = false := beq_eq_false_iff_ne.mpr h2
  have e3 : (sid == "memory-leak") = false := beq_eq_false_iff_ne.mpr h3
  have e4 : (sid == "network-delay") = false := beq_eq_false_iff_ne.mpr h4
  have e5 : (sid == "disk-pressure") = false := beq_eq_false_iff_ne.mpr h5
  simp [scoreMap, List.lookup, e1, e2, e3, e4, e5]

/-- Reading the prompts object at an identifier that is neither an own
key nor an inherited property name yields undefined. -/
lemma scenarioPromptsProp_undefined (s : String) (h1 : s ∉ scenarioIds)
    (h2 : s ∉ objectPrototypeKeys) : scenarioPromptsProp s = .undefined := by
  unfold scenarioPromptsProp getProp
  rw [lookup_map_val, scenarioPrompts_lookup_eq_none s h1]
  simp [h2]

/-- Reading the prompts object at an inherited property name that is not
an own key yields the inherited function. -/
lemma scenarioPromptsProp_proto (s : String) (h1 : s ∉ scenarioIds)
    (h2 : s ∈ objectPrototypeKeys) : scenarioPromptsProp s = .protoFn s := by
  unfold scenarioPromptsProp getProp
  rw [lookup_map_val, scenarioPrompts_lookup_eq_none s h1]
  simp [h2]

/-- A truthy prompts read means an own key or an inherited property. -/
lemma promptsProp_truthy_cases (s : String)
    (h : (scenarioPromptsProp s).truthy = true) :
    s ∈ scenarioIds ∨ (s ∈ objectPrototypeKeys ∧ s ∉ scenarioIds) := by
  by_cases hm : s ∈ scenarioIds
  · exact Or.inl hm
  · by_cases hp : s ∈ objectPrototypeKeys
    · exact Or.inr ⟨hp, hm⟩
    · rw [scenarioPromptsProp_undefined s hm hp] at h
      cases h

/-- The score read at any identifier passing the gate is truthy — the
`|| 100` default is unreachable — and is either an own table number in
{100, 150, 200} or an inherited function. -/
lemma scoreMapProp_spec (s : String)
    (h : (scenarioPromptsProp s).truthy = true) :
    (scoreMapProp s).truthy = true ∧
    ((∃ n, scoreMapProp s = .num n ∧ (n = 100 ∨ n = 150 ∨ n = 200)) ∨
      (∃ t, scoreMapProp s = .protoFn t ∧ t ∈ objectPrototypeKeys ∧
        t ∉ scenarioIds)) := by
  rcases promptsProp_truthy_cases s h with hm | ⟨hp, hm⟩
  · simp only [scenarioIds, List.mem_cons, List.not_mem_nil, or_false] at hm
    rcases hm with rfl | rfl | rfl | rfl | rfl
    · exact ⟨by decide, Or.inl ⟨100, by decide, by decide⟩⟩
    · exact ⟨by decide, Or.inl ⟨150, by decide, by decide⟩⟩
    · exact ⟨by decide, Or.inl ⟨150, by decide, by decide⟩⟩
    · exact ⟨by decide, Or.inl ⟨200, by decide, by decide⟩⟩
    · exact ⟨by decide, Or.inl ⟨200, by decide, by decide⟩⟩
  · have hsm : scoreMapProp s = .protoFn s := by
      unfold scoreMapProp getProp
      rw [lookup_map_val, scoreMap_lookup_eq_none s hm]
      simp [hp]
    exact ⟨by rw [hsm]; rfl, Or.inr ⟨s, hsm, hp, hm⟩⟩

/-- An identifier outside the five reaches the switch default (or the
simulated-mode branch): no command, no timer, no state change, and a
success=false result, whatever the availability probe said. -/
lemma executeChaos_unknown_id (env : Env) (sid : String)
    (hm : sid ∉ scenarioIds) :
    (executeChaos env sid).log = [] ∧
    (executeChaos env sid).cluster = env.cluster ∧
    (executeChaos env sid).timers = [] ∧
    (executeChaos env sid).result.success = false := by
  simp only [scenarioIds, List.mem_cons, List.not_mem_nil, or_false, not_or] at hm
  obtain ⟨h1, h2, h3, h4, h5⟩ := hm
  by_cases ha : env.k8sAvailable = true
  · refine ⟨?_, ?_, ?_, ?_⟩ <;>
      simp [executeChaos, ha, h1, h2, h3, h4, h5, simulatedResult]
  · have ha' : env.k8sAvailable = false := by
      revert ha; cases env.k8sAvailable <;> simp
    refine ⟨?_, ?_, ?_, ?_⟩ <;> simp [executeChaos, ha', simulatedResult]

/-- For any request passing the validation gate and a successful
narration call, `POST /chaos/run` answers 200 with the fields assembled
from `executeChaos` and the score read. -/
lemma chaosRunPOST_pass (env : Env) (avail2 : Bool) (sidOpt : Option String)
    (c : Option String)
    (hcond : (!truthyStr sidOpt ||
      !(scenarioPromptsProp (sidOpt.getD "")).truthy) = false) :
    chaosRunPOST env avail2 (some sidOpt) (.ok c) =
      { response := .ok
          { analysis :=
              match c with
              | none => "Analysis unavailable"
              | some s => if s = "" then "Analysis unavailable" else s
            scoreChange :=
              if (scoreMapProp (sidOpt.getD "")).truthy then
                scoreMapProp (sidOpt.getD "")
              else JSValue.num 100
            success := (executeChaos env (sidOpt.getD "")).result.success
            executionResult := (executeChaos env (sidOpt.getD "")).result.message
            executionDetails := (executeChaos env (sidOpt.getD "")).result.details
            realChaos := avail2 }
        cluster := (executeChaos env (sidOpt.getD "")).cluster
        log := (executeChaos env (sidOpt.getD "")).log
        timers := (executeChaos env (sidOpt.getD "")).timers } := by
  rcases c with _ | s <;> simp [chaosRunPOST, hcond]

/-- For a known scenario identifier and a successful narration call,
`POST /chaos/run` passes validation and answers 200 with the fields
assembled from `executeChaos` and the score table. -/
lemma chaosRunPOST_valid (env : Env) (avail2 : Bool) (sid : String)
    (c : Option String) (hs : sid ∈ scenarioIds) :
    chaosRunPOST env avail2 (some (some sid)) (.ok c) =
      { response := .ok
          { analysis :=
              match c with
              | none => "Analysis unavailable"
              | some s => if s = "" then "Analysis unavailable" else s
            scoreChange := JSValue.num ((scoreMap.lookup sid).getD 100)
            success := (executeChaos env sid).result.success
            executionResult := (executeChaos env sid).result.message
            executionDetails := (executeChaos env sid).result.details
            realChaos := avail2 }
        cluster := (executeChaos env sid).cluster
        log := (executeChaos env sid).log
        timers := (executeChaos env sid).timers } := by
  simp only [scenarioIds, List.mem_cons, List.not_mem_nil, or_false] at hs
  rcases hs with rfl | rfl | rfl | rfl | rfl <;>
    rw [chaosRunPOST_pass _ _ _ _ (by decide)] <;>
    rcases c with _ | s <;>
    simp [scoreMapProp, getProp, scoreMap, List.lookup, JSValue.truthy,
      objectPrototypeKeys]

/-- On the real path with no kubectl failures, the status route reports
the computed health snapshot. -/
lemma clusterStatusGET_real (env : Env) (ha : env.k8sAvailable = true)
    (he : ∀ c, env.err c = none) :
    clusterStatusGET env =
      ({ healthy :=
           if env.cluster.pods.length > 0 then
             runningPods env.cluster = env.cluster.pods.length
           else true
         pods := runningPods env.cluster
         totalPods := env.cluster.pods.length
         nodes := readyNodes env.cluster
         totalNodes := env.cluster.nodes.length
         services := env.cluster.services
         simulated := false },
       [KCmd.getPodsNs, KCmd.getNodes, KCmd.getServices]) := by
  unfold clusterStatusGET getClusterHealth
  rw [he KCmd.getPodsNs]
  simp only
  rw [he KCmd.getNodes]
  simp only
  rw [he KCmd.getServices]
  simp [ha]

/-- In the pod-delete case the outer catch yields its standard result. -/
lemma runPodDelete_catch (env : Env) :
    (runPodDelete env).thrown = none ∨
    ∃ e, (runPodDelete env).thrown = some e ∧
      (runPodDelete env).result = outerCatchResult e := by
  unfold runPodDelete
  split
  · left; rfl
  · split
    · right; exact ⟨_, rfl, rfl⟩
    · left; rfl

/-- In the cpu-spike case the outer catch yields its standard result. -/
lemma runCpuSpike_catch (env : Env) :
    (runCpuSpike env).thrown = none ∨
    ∃ e, (runCpuSpike env).thrown = some e ∧
      (runCpuSpike env).result = outerCatchResult e := by
  unfold runCpuSpike
  split
  · left; rfl
  · split
    · right; exact ⟨_, rfl, rfl⟩
    · split
      · right; exact ⟨_, rfl, rfl⟩
      · left; rfl

/-- In the memory-leak case the outer catch yields its standard result. -/
lemma runMemoryLeak_catch (env : Env) :
    (runMemoryLeak env).thrown = none ∨
    ∃ e, (runMemoryLeak env).thrown = some e ∧
      (runMemoryLeak env).result = outerCatchResult e := by
  unfold runMemoryLeak
  split
  · left; rfl
  · split
    · right; exact ⟨_, rfl, rfl⟩
    · split
      · right; exact ⟨_, rfl, rfl⟩
      · left; rfl

/-- In the network-delay case the outer catch yields its standard result. -/
lemma runNetworkDelay_catch (env : Env) :
    (runNetworkDelay env).thrown = none ∨
    ∃ e, (runNetworkDelay env).thrown = some e ∧
      (runNetworkDelay env).result = outerCatchResult e := by
  unfold runNetworkDelay
  split
  · left; rfl
  · split
    · right; exact ⟨_, rfl, rfl⟩
    · left; rfl

/-- The disk-pressure case never lets an error reach the outer catch. -/
lemma runDiskPressure_thrown (env : Env) :
    (runDiskPressure env).thrown = none := by
  unfold runDiskPressure
  split
  · rfl
  · split
    · rfl
    · split <;> rfl

/-! ## Claim theorems -/

/-- C2: whenever the availability probe reports the cluster CLI
unreachable, the status endpoint returns the placeholder snapshot with
simulated=true and the fixed counts pods=3, nodes=1, services=2, and
`executeChaos` returns success=false with the simulated-mode message, for
every one of the five scenario identifiers; no kubectl action command is
issued in either case. -/
theorem C2_unreachable_simulated (env : Env) (sid : String)
    (ha : env.k8sAvailable = false) (_hs : sid ∈ scenarioIds) :
    clusterStatusGET env = (simulatedSnapshot, []) ∧
    simulatedSnapshot.simulated = true ∧
    simulatedSnapshot.pods = 3 ∧ simulatedSnapshot.totalPods = 3 ∧
    simulatedSnapshot.nodes = 1 ∧ simulatedSnapshot.services = 2 ∧
    (executeChaos env sid).result.success = false ∧
    (executeChaos env sid).result.message =
      "Simulated: " ++ sid ++ ". Connect to a Kubernetes cluster to run real chaos experiments." ∧
    (executeChaos env sid).log = [] ∧
    (executeChaos env sid).timers = [] := by
  refine ⟨?_, rfl, rfl, rfl, rfl, rfl, ?_, ?_, ?_, ?_⟩ <;>
    simp [clusterStatusGET, executeChaos, ha, simulatedResult]

/-- Witness for C2 at the concrete unreachable environment. -/
theorem C2_witness :
    clusterStatusGET envSim = (simulatedSnapshot, []) ∧
    (executeChaos envSim "pod-delete").result.success = false ∧
    (executeChaos envSim "pod-delete").log = [] :=
  ⟨(C2_unreachable_simulated envSim "pod-delete" rfl (by decide)).1,
   (C2_unreachable_simulated envSim "pod-delete" rfl (by decide)).2.2.2.2.2.2.1,
   (C2_unreachable_simulated envSim "pod-delete" rfl (by decide)).2.2.2.2.2.2.2.2.1⟩

/-- C4: for disk-pressure with a non-empty node list, `executeChaos`
cordons exactly the node at index 0 of the node list, issues no uncordon
command during the call, and schedules exactly one uncordon attempt, at
30000 ms (30 seconds). -/
theorem C4_disk_pressure_cordons_first_node (env : Env) (n : KNode)
    (rest : List KNode) (ha : env.k8sAvailable = true)
    (he : ∀ c, env.err c = none) (hn : env.cluster.nodes = n :: rest) :
    (executeChaos env "disk-pressure").log = [KCmd.getNodes, KCmd.cordon n.name] ∧
    (executeChaos env "disk-pressure").log.filter
      (fun c => match c with | KCmd.uncordon _ => true | _ => false) = [] ∧
    (executeChaos env "disk-pressure").timers = [(30000, KCmd.uncordon n.name)] ∧
    (executeChaos env "disk-pressure").cluster = cordonNodeState env.cluster n.name ∧
    (executeChaos env "disk-pressure").result.success = true := by
  rw [executeChaos_disk_pressure env ha]
  unfold runDiskPressure
  rw [he KCmd.getNodes]
  simp only
  rw [hn]
  simp only
  rw [he (KCmd.cordon n.name)]
  simp [List.filter]

/-- Witness for C4 at the concrete one-node environment. -/
theorem C4_witness :
    (executeChaos envEx "disk-pressure").log = [KCmd.getNodes, KCmd.cordon "node-1"] ∧
    (executeChaos envEx "disk-pressure").timers = [(30000, KCmd.uncordon "node-1")] :=
  ⟨(C4_disk_pressure_cordons_first_node envEx
      { name := "node-1", ready := true, unschedulable := false } [] rfl
      (fun _ => rfl) rfl).1,
   (C4_disk_pressure_cordons_first_node envEx
      { name := "node-1", ready := true, unschedulable := false } [] rfl
      (fun _ => rfl) rfl).2.2.1⟩

/-- C1: for each of the four pod scenario identifiers, when the cluster
CLI is reachable and at least one pod matches app=nginx, `executeChaos`
deletes exactly one matching pod and returns success=true; when no pod
matches, it performs no deletion and returns success=false with a
guidance message. -/
theorem C1_pod_scenarios_delete_one (sid : String) (hs : sid ∈ podScenarioIds)
    (env : Env) (ha : env.k8sAvailable = true) (he : ∀ c, env.err c = none)
    (hnd : (env.cluster.pods.map Pod.name).Nodup) :
    (matchingPodNames "app=nginx" env.cluster ≠ [] →
      ∃ p l₁ l₂, env.cluster.pods = l₁ ++ p :: l₂ ∧
        labelMatches "app=nginx" p = true ∧
        (executeChaos env sid).cluster.pods = l₁ ++ l₂ ∧
        (executeChaos env sid).result.success = true) ∧
    (matchingPodNames "app=nginx" env.cluster = [] →
      (executeChaos env sid).cluster = env.cluster ∧
      (executeChaos env sid).result.success = false ∧
      (executeChaos env sid).log.filter KCmd.isMutating = [] ∧
      ((executeChaos env sid).result.message = noPodsLong.message ∨
        (executeChaos env sid).result.message = noPodsShort.message)) := by
  have hview := executeChaos_podScenario_view env sid hs ha he
  constructor
  · intro hne
    obtain ⟨n, hn, hmem⟩ := getRandomPod_eq_some env "app=nginx" (he _) hne
    unfold deleteActionView at hview
    rw [hn] at hview
    simp only [Prod.mk.injEq] at hview
    obtain ⟨hcl, _hlog, hsucc⟩ := hview
    obtain ⟨q, hqmem, hqlab, hqname⟩ := mem_matchingPodNames.mp hmem
    obtain ⟨a, l₁, l₂, _hl₁, hpa, hsplit, herase⟩ :=
      List.exists_of_eraseP (p := fun p => decide (p.name = n)) hqmem (by simp [hqname])
    have haname : a.name = n := by simpa using hpa
    have hamem : a ∈ env.cluster.pods := by rw [hsplit]; simp
    have haq : a = q :=
      List.inj_on_of_nodup_map hnd hamem hqmem (by rw [haname, hqname])
    refine ⟨a, l₁, l₂, hsplit, by rw [haq]; exact hqlab, ?_, hsucc⟩
    rw [hcl]
    simpa [removePod] using herase
  · intro hempty
    unfold deleteActionView at hview
    rw [getRandomPod_eq_none env "app=nginx" (he _) hempty] at hview
    simp only [Prod.mk.injEq] at hview
    obtain ⟨hcl, hlog, hsucc⟩ := hview
    refine ⟨hcl, hsucc, hlog, ?_⟩
    simp only [podScenarioIds, List.mem_cons, List.not_mem_nil, or_false] at hs
    rcases hs with rfl | rfl | rfl | rfl
    · left
      rw [executeChaos_pod_delete env ha]
      unfold runPodDelete
      rw [getRandomPod_eq_none env "app=nginx" (he _) hempty]
    · right
      rw [executeChaos_cpu_spike env ha]
      unfold runCpuSpike
      rw [getRandomPod_eq_none env "app=nginx" (he _) hempty]
    · right
      rw [executeChaos_memory_leak env ha]
      unfold runMemoryLeak
      rw [getRandomPod_eq_none env "app=nginx" (he _) hempty]
    · right
      rw [executeChaos_network_delay env ha]
      unfold runNetworkDelay
      rw [getRandomPod_eq_none env "app=nginx" (he _) hempty]

/-- Witness for C1 at the three-pod example environment. -/
theorem C1_witness :
    matchingPodNames "app=nginx" envEx.cluster ≠ [] ∧
    (∃ p l₁ l₂, envEx.cluster.pods = l₁ ++ p :: l₂ ∧
      labelMatches "app=nginx" p = true ∧
      (executeChaos envEx "pod-delete").cluster.pods = l₁ ++ l₂ ∧
      (executeChaos envEx "pod-delete").result.success = true) :=
  ⟨by decide,
   (C1_pod_scenarios_delete_one "pod-delete" (by decide) envEx rfl
      (fun _ => rfl) (by decide)).1 (by decide)⟩

/-- C5: the four pod scenario identifiers perform the identical cluster
action — they produce the same resulting cluster state, the same sequence
of state-mutating kubectl commands, the same timers (none), and the same
success flag; they differ only in the returned strings. -/
theorem C5_four_scenarios_same_action (sid₁ sid₂ : String)
    (h₁ : sid₁ ∈ podScenarioIds) (h₂ : sid₂ ∈ podScenarioIds)
    (env : Env) (ha : env.k8sAvailable = true) (he : ∀ c, env.err c = none) :
    (executeChaos env sid₁).cluster = (executeChaos env sid₂).cluster ∧
    (executeChaos env sid₁).log.filter KCmd.isMutating =
      (executeChaos env sid₂).log.filter KCmd.isMutating ∧
    (executeChaos env sid₁).timers = (executeChaos env sid₂).timers ∧
    (executeChaos env sid₁).result.success =
      (executeChaos env sid₂).result.success := by
  have hv₁ := executeChaos_podScenario_view env sid₁ h₁ ha he
  have hv₂ := executeChaos_podScenario_view env sid₂ h₂ ha he
  rw [← hv₂] at hv₁
  simp only [Prod.mk.injEq] at hv₁
  refine ⟨hv₁.1, hv₁.2.1, ?_, hv₁.2.2⟩
  rw [executeChaos_podScenario_timers env sid₁ h₁ ha,
    executeChaos_podScenario_timers env sid₂ h₂ ha]

/-- Witness for C5: pod-delete and network-delay at the example
environment. -/
theorem C5_witness :
    (executeChaos envEx "pod-delete").cluster =
      (executeChaos envEx "network-delay").cluster ∧
    (executeChaos envEx "pod-delete").log.filter KCmd.isMutating =
      (executeChaos envEx "network-delay").log.filter KCmd.isMutating :=
  ⟨(C5_four_scenarios_same_action "pod-delete" "network-delay" (by decide)
      (by decide) envEx rfl (fun _ => rfl)).1,
   (C5_four_scenarios_same_action "pod-delete" "network-delay" (by decide)
      (by decide) envEx rfl (fun _ => rfl)).2.1⟩

/-- C3: for every valid scenario identifier the scoreChange of
`POST /chaos/run` equals the static table value (pod-delete=100,
cpu-spike=150, memory-leak=150, network-delay=200, disk-pressure=200)
for every environment — in particular whether the action succeeded or
not; and the pod-delete example against the three-pod cluster yields
scoreChange 100, success true, and one pod removed. -/
theorem C3_score_from_static_table (sid : String) (hs : sid ∈ scenarioIds)
    (env : Env) (avail2 : Bool) (c : Option String) :
    (∃ r, (chaosRunPOST env avail2 (some (some sid)) (.ok c)).response = .ok r ∧
      r.scoreChange = JSValue.num ((scoreMap.lookup sid).getD 100) ∧
      r.success = (executeChaos env sid).result.success ∧
      (sid = "pod-delete" → r.scoreChange = JSValue.num 100) ∧
      (sid = "cpu-spike" → r.scoreChange = JSValue.num 150) ∧
      (sid = "memory-leak" → r.scoreChange = JSValue.num 150) ∧
      (sid = "network-delay" → r.scoreChange = JSValue.num 200) ∧
      (sid = "disk-pressure" → r.scoreChange = JSValue.num 200)) ∧
    (∃ r, (chaosRunPOST envEx true (some (some "pod-delete")) (.ok (some "A"))).response = .ok r ∧
      r.scoreChange = JSValue.num 100 ∧ r.success = true ∧
      (chaosRunPOST envEx true (some (some "pod-delete")) (.ok (some "A"))).cluster.pods.map Pod.name =
        ["nginx-b", "nginx-c"]) := by
  constructor
  · rw [chaosRunPOST_valid env avail2 sid c hs]
    refine ⟨_, rfl, rfl, rfl, ?_, ?_, ?_, ?_, ?_⟩ <;> (rintro rfl; rfl)
  · refine ⟨_, rfl, ?_, ?_, ?_⟩ <;> rfl

/-- Witness for C3 at the unreachable environment, where the action
fails yet the score is still the table value. -/
theorem C3_witness :
    ∃ r, (chaosRunPOST envSim false (some (some "disk-pressure")) (.ok none)).response = .ok r ∧
      r.scoreChange = JSValue.num ((scoreMap.lookup "disk-pressure").getD 100) ∧
      r.success = (executeChaos envSim "disk-pressure").result.success :=
  match (C3_score_from_static_table "disk-pressure" (by decide) envSim false none).1 with
  | ⟨r, h1, h2, h3, _⟩ => ⟨r, h1, h2, h3⟩

/-- C9: the realChaos response field equals the second, independent
availability probe taken after `executeChaos` returned, for every
environment; in particular with the first probe false and the second
true, the response carries realChaos=true together with the
simulated-mode success=false execution result. -/
theorem C9_realChaos_from_second_probe :
    (∀ (env : Env) (avail2 : Bool) (sid : String) (c : Option String),
      sid ∈ scenarioIds →
      ∃ r, (chaosRunPOST env avail2 (some (some sid)) (.ok c)).response = .ok r ∧
        r.realChaos = avail2) ∧
    (∃ r, (chaosRunPOST envSim true (some (some "pod-delete")) (.ok (some "A"))).response = .ok r ∧
      r.realChaos = true ∧ r.success = false ∧
      r.executionResult = (simulatedResult "pod-delete").message) := by
  constructor
  · intro env avail2 sid c hs
    rw [chaosRunPOST_valid env avail2 sid c hs]
    exact ⟨_, rfl, rfl⟩
  · refine ⟨_, rfl, ?_, ?_, ?_⟩ <;> rfl

/-- Witness for C9's quantified part at a concrete environment. -/
theorem C9_witness :
    ∃ r, (chaosRunPOST envEx false (some (some "cpu-spike")) (.ok none)).response = .ok r ∧
      r.realChaos = false :=
  C9_realChaos_from_second_probe.1 envEx false "cpu-spike" none (by decide)

/-- C6 counterexample: the identifier toString is not one of the five
scenario identifiers, yet the request passes the validation gate — the
bracket access scenarioPrompts[toString] finds the truthy inherited
Object.prototype method — and the route answers 200, not 400. -/
theorem C6_counterexample :
    "toString" ∉ scenarioIds ∧
    (chaosRunPOST envEx true (some (some "toString")) (.ok none)).response ≠
      RunResponse.badRequest ∧
    ((chaosRunPOST envEx true (some (some "toString")) (.ok none)).response).status = 200 := by
  decide

/-- C6 as amended: a request body whose scenarioId is absent, or neither
one of the five known identifiers nor an Object.prototype inherited
property name, gets a 400 response from `POST /chaos/run` with no kubectl
command issued; an unknown identifier reaching the dispatcher (in
particular one passing the gate via an inherited property name) makes the
dispatcher fallback return success=false, still with no kubectl command
and no state change. -/
theorem C6_invalid_scenario_rejected :
    (∀ (env : Env) (avail2 : Bool) (groq : Except String (Option String))
        (sidOpt : Option String),
      (sidOpt = none ∨ ∀ s, sidOpt = some s →
        s ∉ scenarioIds ∧ s ∉ objectPrototypeKeys) →
      (chaosRunPOST env avail2 (some sidOpt) groq).response = .badRequest ∧
      ((chaosRunPOST env avail2 (some sidOpt) groq).response).status = 400 ∧
      (chaosRunPOST env avail2 (some sidOpt) groq).log = [] ∧
      (chaosRunPOST env avail2 (some sidOpt) groq).cluster = env.cluster ∧
      (chaosRunPOST env avail2 (some sidOpt) groq).timers = []) ∧
    (∀ (env : Env) (sid : String), env.k8sAvailable = true →
      sid ∉ scenarioIds →
      (executeChaos env sid).result.success = false ∧
      (executeChaos env sid).result.message = "Unknown scenario: " ++ sid ∧
      (executeChaos env sid).log = []) ∧
    (∀ (env : Env) (avail2 : Bool) (c : Option String) (s : String),
      s ∈ objectPrototypeKeys → s ∉ scenarioIds →
      (chaosRunPOST env avail2 (some (some s)) (.ok c)).log = [] ∧
      (chaosRunPOST env avail2 (some (some s)) (.ok c)).cluster = env.cluster ∧
      (chaosRunPOST env avail2 (some (some s)) (.ok c)).timers = [] ∧
      ∃ r, (chaosRunPOST env avail2 (some (some s)) (.ok c)).response = .ok r ∧
        r.success = false) := by
  refine ⟨?_, ?_, ?_⟩
  · intro env avail2 groq sidOpt h
    have hcond : (!truthyStr sidOpt ||
        !(scenarioPromptsProp (sidOpt.getD "")).truthy) = true := by
      rcases h with rfl | h
      · rfl
      · rcases sidOpt with _ | s
        · rfl
        · simp only [Option.getD_some]
          rw [scenarioPromptsProp_undefined s (h s rfl).1 (h s rfl).2]
          simp [JSValue.truthy]
    refine ⟨?_, ?_, ?_, ?_, ?_⟩ <;> simp [chaosRunPOST, hcond, RunResponse.status]
  · intro env sid ha hs
    simp only [scenarioIds, List.mem_cons, List.not_mem_nil, or_false, not_or] at hs
    obtain ⟨h1, h2, h3, h4, h5⟩ := hs
    refine ⟨?_, ?_, ?_⟩ <;> simp [executeChaos, ha, h1, h2, h3, h4, h5]
  · intro env avail2 c s hp hm
    have hne : ¬s = "" := by
      rintro rfl
      exact absurd hp (by decide)
    have hcond : (!truthyStr (some s) ||
        !(scenarioPromptsProp ((some s : Option String).getD "")).truthy) = false := by
      simp only [Option.getD_some]
      rw [scenarioPromptsProp_proto s hm hp]
      simp [truthyStr, hne, JSValue.truthy]
    have hu := executeChaos_unknown_id env s hm
    rw [chaosRunPOST_pass env avail2 (some s) c hcond]
    exact ⟨hu.1, hu.2.1, hu.2.2.1, ⟨_, rfl, hu.2.2.2⟩⟩

/-- Witness for the amended C6: a plain unknown identifier is rejected
with no command, and the inherited name toString reaches the dispatcher
with no command issued either. -/
theorem C6_witness :
    (chaosRunPOST envEx true (some (some "bogus")) (.ok none)).response = .badRequest ∧
    (chaosRunPOST envEx true (some (some "bogus")) (.ok none)).log = [] ∧
    (executeChaos envEx "bogus").result.success = false ∧
    (chaosRunPOST envEx true (some (some "toString")) (.ok none)).log = [] :=
  ⟨(C6_invalid_scenario_rejected.1 envEx true (.ok none) (some "bogus")
      (Or.inr (by intro s hs; cases hs; exact ⟨by decide, by decide⟩))).1,
   (C6_invalid_scenario_rejected.1 envEx true (.ok none) (some "bogus")
      (Or.inr (by intro s hs; cases hs; exact ⟨by decide, by decide⟩))).2.2.1,
   (C6_invalid_scenario_rejected.2.1 envEx "bogus" rfl (by decide)).1,
   (C6_invalid_scenario_rejected.2.2 envEx true none "toString" (by decide)
      (by decide)).1⟩

/-- C10 counterexample: the request with scenarioId toString passes the
validation gate, toString is not a key of the score table, and the 200
response carries as scoreChange the inherited Object.prototype function —
none of the table numbers 100, 150, 200. -/
theorem C10_counterexample :
    scoreMap.lookup "toString" = none ∧
    ((chaosRunPOST envEx true (some (some "toString")) (.ok none)).response).status = 200 ∧
    ∃ r, (chaosRunPOST envEx true (some (some "toString")) (.ok none)).response = .ok r ∧
      r.scoreChange = JSValue.protoFn "toString" ∧
      r.scoreChange ≠ JSValue.num 100 ∧
      r.scoreChange ≠ JSValue.num 150 ∧
      r.scoreChange ≠ JSValue.num 200 := by
  refine ⟨by decide, by decide, _, rfl, ?_, ?_, ?_, ?_⟩ <;> decide

/-- C10 as amended: scenarioPrompts and scoreMap have identical own key
lists, and the validation gate checks JS truthiness of
scenarioPrompts[scenarioId], which admits the five own keys and the
Object.prototype inherited property names; since both object literals
share that prototype, every gate-passing identifier finds a truthy score
value, so the `or 100` default of the scoreChange computation is
unreachable — but scoreChange is a table number in {100, 150, 200} only
for the five own keys, and the inherited function for the others. -/
theorem C10_score_table_or_prototype :
    scenarioPrompts.map Prod.fst = scoreMap.map Prod.fst ∧
    (∀ sid, (scenarioPrompts.lookup sid).isSome = true →
      (scoreMap.lookup sid).isSome = true ∧
      ((scoreMap.lookup sid).getD 100 = 100 ∨ (scoreMap.lookup sid).getD 100 = 150 ∨
        (scoreMap.lookup sid).getD 100 = 200)) ∧
    (∀ (env : Env) (avail2 : Bool) (sidOpt : Option String)
        (groq : Except String (Option String)) (r : RunOk),
      (chaosRunPOST env avail2 (some sidOpt) groq).response = .ok r →
      (scoreMapProp (sidOpt.getD "")).truthy = true ∧
      r.scoreChange = scoreMapProp (sidOpt.getD "") ∧
      ((∃ n, r.scoreChange = JSValue.num n ∧ (n = 100 ∨ n = 150 ∨ n = 200)) ∨
        (∃ t, r.scoreChange = JSValue.protoFn t ∧ t ∈ objectPrototypeKeys ∧
          t ∉ scenarioIds))) := by
  refine ⟨rfl, ?_, ?_⟩
  · intro sid h
    have hmem := mem_scenarioIds_of_lookup sid h
    simp only [scenarioIds, List.mem_cons, List.not_mem_nil, or_false] at hmem
    rcases hmem with rfl | rfl | rfl | rfl | rfl <;> exact ⟨rfl, by decide⟩
  · intro env avail2 sidOpt groq r h
    by_cases hcond : (!truthyStr sidOpt ||
        !(scenarioPromptsProp (sidOpt.getD "")).truthy) = true
    · simp [chaosRunPOST, hcond] at h
    · have hcond2 := eq_false_of_ne_true hcond
      have hgate : (scenarioPromptsProp (sidOpt.getD "")).truthy = true := by
        rw [Bool.or_eq_false_iff] at hcond2
        simpa using hcond2.2
      obtain ⟨htr, hval⟩ := scoreMapProp_spec (sidOpt.getD "") hgate
      rcases groq with e | c
      · simp [chaosRunPOST, hcond2] at h
      · rw [chaosRunPOST_pass env avail2 sidOpt c hcond2] at h
        simp only [RunResponse.ok.injEq] at h
        have hsc : r.scoreChange = scoreMapProp (sidOpt.getD "") := by
          rw [← h]
          show (if (scoreMapProp (sidOpt.getD "")).truthy then
              scoreMapProp (sidOpt.getD "") else JSValue.num 100) =
            scoreMapProp (sidOpt.getD "")
          rw [if_pos htr]
        refine ⟨htr, hsc, ?_⟩
        rcases hval with ⟨n, hn, hv⟩ | ⟨t, ht, ht1, ht2⟩
        · exact Or.inl ⟨n, by rw [hsc, hn], hv⟩
        · exact Or.inr ⟨t, by rw [hsc, ht], ht1, ht2⟩

/-- Witness for the amended C10 at a gate-passing own key. -/
theorem C10_witness :
    (scoreMap.lookup "network-delay").isSome = true ∧
    ((scoreMapProp "network-delay").truthy = true ∧
      ∃ r, (chaosRunPOST envEx true (some (some "network-delay")) (.ok none)).response = .ok r ∧
        r.scoreChange = scoreMapProp "network-delay") := by
  constructor
  · exact (C10_score_table_or_prototype.2.1 "network-delay" (by decide)).1
  · have h := C10_score_table_or_prototype.2.2 envEx true (some "network-delay")
      (.ok none) _ rfl
    exact ⟨h.1, ⟨_, rfl, h.2.1⟩⟩

/-- C8: on the real query path the healthy field equals
(totalPods == 0) OR (runningPods == totalPods), with runningPods counting
pods in phase Running; an empty cluster is reported healthy. -/
theorem C8_healthy_formula (env : Env) (ha : env.k8sAvailable = true)
    (he : ∀ c, env.err c = none) :
    (clusterStatusGET env).1.simulated = false ∧
    ((clusterStatusGET env).1.healthy = true ↔
      (env.cluster.pods.length = 0 ∨
        runningPods env.cluster = env.cluster.pods.length)) ∧
    (env.cluster.pods = [] → (clusterStatusGET env).1.healthy = true) := by
  rw [clusterStatusGET_real env ha he]
  refine ⟨rfl, ?_, ?_⟩
  · rcases Nat.eq_zero_or_pos env.cluster.pods.length with h0 | h0
    · simp [h0]
    · have hne : env.cluster.pods.length ≠ 0 := by omega
      simp [h0, hne]
  · intro h
    simp [h]

/-- Witness for C8: the example cluster is not simulated, and the empty
cluster is reported healthy. -/
theorem C8_witness :
    (clusterStatusGET envEx).1.simulated = false ∧
    (clusterStatusGET envEmpty).1.healthy = true :=
  ⟨(C8_healthy_formula envEx rfl (fun _ => rfl)).1,
   (C8_healthy_formula envEmpty rfl (fun _ => rfl)).2.2 rfl⟩

/-- C7 counterexample: when deleting pod nginx-a fails with error text
boom, `executeChaos` catches the error and returns success=false, but the
details field does not carry the error text — it is the fixed guidance
string, and the error text appears in the message field instead. -/
theorem C7_counterexample :
    (executeChaos envBoom "pod-delete").thrown = some "Failed to delete pod: boom" ∧
    (executeChaos envBoom "pod-delete").result.success = false ∧
    strContains (executeChaos envBoom "pod-delete").result.details "boom" = false ∧
    strContains (executeChaos envBoom "pod-delete").result.details
      "Failed to delete pod" = false ∧
    (executeChaos envBoom "pod-delete").result.details =
      "Check kubectl access and cluster connectivity" ∧
    strContains (executeChaos envBoom "pod-delete").result.message "boom" = true := by
  decide

/-- C7 as amended: any subprocess error is caught and converted into a
success=false ActionResult, never propagated; an error reaching the outer
catch carries its text in the message field with the fixed guidance
details, while the disk-pressure case's inner catch carries the error
text in the details field with the fixed message. -/
theorem C7_amended_error_handling :
    (∀ (env : Env) (sid : String) (e : String),
      (executeChaos env sid).thrown = some e →
      (executeChaos env sid).result = outerCatchResult e ∧
      (executeChaos env sid).result.success = false) ∧
    (∀ (env : Env) (m : String), env.k8sAvailable = true →
      env.err KCmd.getNodes = some m →
      (executeChaos env "disk-pressure").result =
        { success := false, message := "Failed to cordon node"
          details := "kubectl failed: " ++ m }) ∧
    (∀ (env : Env) (n : KNode) (rest : List KNode) (m : String),
      env.k8sAvailable = true → env.err KCmd.getNodes = none →
      env.cluster.nodes = n :: rest → env.err (KCmd.cordon n.name) = some m →
      (executeChaos env "disk-pressure").result =
        { success := false, message := "Failed to cordon node"
          details := "kubectl failed: " ++ m }) := by
  refine ⟨?_, ?_, ?_⟩
  · intro env sid e h
    by_cases ha : env.k8sAvailable = true
    · by_cases h1 : sid = "pod-delete"
      · subst h1
        rw [executeChaos_pod_delete env ha] at h ⊢
        rcases runPodDelete_catch env with hc | ⟨e', he', hr⟩
        · rw [hc] at h; cases h
        · rw [he'] at h
          injection h with h
          subst h
          exact ⟨hr, by rw [hr]; rfl⟩
      by_cases h2 : sid = "cpu-spike"
      · subst h2
        rw [executeChaos_cpu_spike env ha] at h ⊢
        rcases runCpuSpike_catch env with hc | ⟨e', he', hr⟩
        · rw [hc] at h; cases h
        · rw [he'] at h
          injection h with h
          subst h
          exact ⟨hr, by rw [hr]; rfl⟩
      by_cases h3 : sid = "memory-leak"
      · subst h3
        rw [executeChaos_memory_leak env ha] at h ⊢
        rcases runMemoryLeak_catch env with hc | ⟨e', he', hr⟩
        · rw [hc] at h; cases h
        · rw [he'] at h
          injection h with h
          subst h
          exact ⟨hr, by rw [hr]; rfl⟩
      by_cases h4 : sid = "network-delay"
      · subst h4
        rw [executeChaos_network_delay env ha] at h ⊢
        rcases runNetworkDelay_catch env with hc | ⟨e', he', hr⟩
        · rw [hc] at h; cases h
        · rw [he'] at h
          injection h with h
          subst h
          exact ⟨hr, by rw [hr]; rfl⟩
      by_cases h5 : sid = "disk-pressure"
      · subst h5
        rw [executeChaos_disk_pressure env ha] at h
        rw [runDiskPressure_thrown env] at h
        cases h
      · simp [executeChaos, ha, h1, h2, h3, h4, h5] at h
    · have ha' : env.k8sAvailable = false := by
        revert ha; cases env.k8sAvailable <;> simp
      simp [executeChaos, ha'] at h
  · intro env m ha hm
    rw [executeChaos_disk_pressure env ha]
    unfold runDiskPressure
    rw [hm]
  · intro env n rest m ha hgn hn hc
    rw [executeChaos_disk_pressure env ha]
    unfold runDiskPressure
    rw [hgn]
    simp only
    rw [hn]
    simp only
    rw [hc]

/-- Witness for the amended C7 at the failing-deletion environment. -/
theorem C7_witness :
    (executeChaos envBoom "pod-delete").result =
      outerCatchResult "Failed to delete pod: boom" ∧
    (executeChaos envBoom "pod-delete").result.success = false :=
  C7_amended_error_handling.1 envBoom "pod-delete" "Failed to delete pod: boom"
    (by decide)

end Kiki
